import Mathlib

/-!
# N8 gRPC control plane — verification development

Shallow embedding of the N8 hub control-plane modules and proofs of the
spec's claims about them.  Each module of the Python backend is embedded
in its own namespace:

* `N8.AuthMW`  — `backend/auth_middleware.py` (permission check)
* `N8.AK`      — `backend/api_key_manager.py` (credential store)
* `N8.SM`      — `backend/session_manager.py` (session verification)
* `N8.Reg`     — `backend/device_registration.py` (device registry)
* `N8.HB`      — `heartbeat.py` (liveness tracker / offline sweep)
* `N8.Grpc`    — `backend/grpc_server.py` (command channel)

The relational store is a list of rows per table; `datetime.now()` is an
explicit integer-timestamp parameter; random key/token generation is an
explicit "fresh value" parameter.  Audit-log writes are not modelled: no
claim observes them.
-/

namespace N8

/-- Update every row matching `p` with `f` (SQL `UPDATE … WHERE p`). -/
def updateWhere (p : α → Bool) (f : α → α) (l : List α) : List α :=
  l.map (fun x => if p x then f x else x)

/-- Update the first row matching `p` with `f` (mutating the ORM object
returned by `query(…).first()`). -/
def updateFirst (p : α → Bool) (f : α → α) : List α → List α
  | [] => []
  | x :: xs => if p x then f x :: xs else x :: updateFirst p f xs

namespace AuthMW

/-!
Embedding of `AuthMiddleware.check_permissions`
(`backend/auth_middleware.py`, lines 155–184).

The Python function receives an `auth_info` dict that is either a session
info dict (carrying a nested `api_key` dict with the permissions) or an
API-key info dict (carrying the permissions directly); in both shapes it
extracts a list of permission strings, defaulting to the empty list when
the key is absent.
-/

/-- The two shapes of `auth_info` dict accepted by `check_permissions`:
a session dict with a nested `api_key` dict, or a flat API-key dict.
In both cases only the extracted permission list is relevant. -/
inductive AuthInfo where
  | session (api_key_permissions : List String)
  | apiKey (permissions : List String)
deriving DecidableEq

/-- `auth_info['api_key'].get('permissions', [])` respectively
`auth_info.get('permissions', [])`. -/
def AuthInfo.userPermissions : AuthInfo → List String
  | .session ps => ps
  | .apiKey ps => ps

/-- `AuthMiddleware.check_permissions`: empty permission list on the
credential is treated as allow-all ("兼容模式" comment in the source);
otherwise every required permission must literally occur in the
credential's permission list.  Note the source has no handling for a
`"*"` wildcard entry. -/
def check_permissions (auth_info : AuthInfo) (required_permissions : List String) : Bool :=
  let user_permissions := auth_info.userPermissions
  if user_permissions.isEmpty then
    true
  else
    required_permissions.all (fun perm => user_permissions.contains perm)

end AuthMW

namespace AK

/-!
Embedding of `APIKeyManager` (`backend/api_key_manager.py`).

The `api_keys` table is the one from `models_merged.py` that the module's
SQL actually targets: columns `id, user_id, key, name, is_active,
expires_at, last_used_at, created_at` — there is no `hashed_secret`,
`api_type` or `permissions` column.  `bcrypt` hashing of the secret at
creation time is computed by the source but its result is never stored,
so it does not appear in the state.
-/

/-- A row of the `api_keys` table (columns used by the module). -/
structure ApiKeyRow where
  id : Nat
  user_id : Nat
  key : String
  name : String
  is_active : Bool
  expires_at : Option Int
  last_used_at : Option Int
  created_at : Int
deriving DecidableEq

/-- A row of the `users` table (columns used by the module). -/
structure UserRow where
  id : Nat
  username : String
  display_name : String
  role : String
  is_active : Bool
deriving DecidableEq

/-- The database state seen by `APIKeyManager`, with the sequence
counters that model the `SERIAL` primary keys. -/
structure Store where
  users : List UserRow
  api_keys : List ApiKeyRow
  next_user_id : Nat
  next_api_key_id : Nat
deriving DecidableEq

/-- The dict returned by `create_api_key`: the inserted columns plus the
`api_type` and `permissions` arguments echoed back verbatim (they are
*not* persisted). -/
structure CreatedKeyInfo where
  id : Nat
  api_key : String
  api_name : String
  is_active : Bool
  expires_at : Option Int
  created_at : Int
  api_type : String
  permissions : Option (List String)
deriving DecidableEq

/-- The dict returned by `verify_api_key` on success. -/
structure ApiKeyInfo where
  id : Nat
  api_key : String
  api_name : String
  api_type : String
  permissions : List String
  is_active : Bool
  expires_at : Option Int
  last_used_at : Option Int
deriving DecidableEq

/-- An empty database. -/
def emptyStore : Store :=
  { users := [], api_keys := [], next_user_id := 1, next_api_key_id := 1 }

/-- `APIKeyManager.create_api_key`.  `now` models `datetime.now()` (in
seconds); `fresh_key` models the random output of `generate_api_key()`.
Python's `if expires_days:` is truthiness: `0` and `None` both yield no
expiry.  The bcrypt hash of `secret` and the permissions JSON are
computed by the source but discarded (the insert stores neither), so the
`secret` and `permissions` arguments do not influence the new state. -/
def create_api_key (store : Store) (api_name api_type secret : String)
    (permissions : Option (List String)) (expires_days : Option Nat)
    (now : Int) (fresh_key : String) : Except String (Store × CreatedKeyInfo) :=
  if api_type ∉ ["web", "external", "internal"] then
    .error ("Invalid api_type: " ++ api_type)
  else
    let _hashed_secret := secret       -- hash_secret(secret): computed, never stored
    let expires_at : Option Int :=
      match expires_days with
      | some d => if d ≠ 0 then some (now + (d : Int) * 86400) else none
      | none => none
    -- json.dumps(permissions if permissions else ["*"]): computed, never stored
    let (user_id, store) :=
      match store.users.find? (fun u => u.username == "system") with
      | some u => (u.id, store)
      | none =>
        let u : UserRow :=
          { id := store.next_user_id, username := "system",
            display_name := "System User", role := "ADMIN", is_active := true }
        (u.id, { store with users := store.users ++ [u],
                            next_user_id := store.next_user_id + 1 })
    let row : ApiKeyRow :=
      { id := store.next_api_key_id, user_id := user_id, key := fresh_key,
        name := api_name, is_active := true, expires_at := expires_at,
        last_used_at := none, created_at := now }
    let store := { store with api_keys := store.api_keys ++ [row],
                              next_api_key_id := store.next_api_key_id + 1 }
    .ok (store,
      { id := row.id, api_key := row.key, api_name := row.name,
        is_active := true, expires_at := expires_at, created_at := now,
        api_type := api_type, permissions := permissions })

/-- The dict returned for the hardcoded emergency admin key. -/
def breakGlassInfo : ApiKeyInfo :=
  { id := 0, api_key := "web_admin_api_key_2024_v1",
    api_name := "Web Admin (Emergency)", api_type := "web",
    permissions := ["*"], is_active := true, expires_at := none,
    last_used_at := none }

/-- `APIKeyManager.verify_api_key`.  After the break-glass check it looks
the key up, rejects inactive or expired rows, stamps `last_used_at` and
returns the row's columns together with the hardcoded defaults
`api_type = "web"` and `permissions = ["*"]` ("补充默认信息以适配旧接口").
The `secret` argument is never compared against anything outside the
break-glass branch. -/
def verify_api_key (store : Store) (api_key secret : String) (now : Int) :
    Store × Option ApiKeyInfo :=
  if api_key == "web_admin_api_key_2024_v1" && secret == "admin_secret_2024" then
    (store, some breakGlassInfo)
  else
    match store.api_keys.find? (fun r => r.key == api_key) with
    | none => (store, none)
    | some row =>
      if !row.is_active then
        (store, none)
      else if (match row.expires_at with
               | some e => decide (e < now)
               | none => false) then
        (store, none)
      else
        let store' := { store with
          api_keys := updateWhere (fun r => r.id == row.id)
            (fun r => { r with last_used_at := some now }) store.api_keys }
        (store', some
          { id := row.id, api_key := row.key, api_name := row.name,
            api_type := "web", permissions := ["*"],
            is_active := row.is_active, expires_at := row.expires_at,
            last_used_at := row.last_used_at })

end AK

namespace SM

/-!
Embedding of `SessionManager.verify_session`
(`backend/session_manager.py`, lines 91–145).

The SQL joins `sessions` to `api_keys` on `api_key_id = id` and selects
the credential's `api_name, api_type, permissions, is_active` columns, so
the `api_keys` table seen by this module carries those columns.
-/

/-- A row of the `sessions` table (columns used by `verify_session`). -/
structure SessionRow where
  id : Nat
  session_token : String
  api_key_id : Nat
  device_id : Option String
  ip_address : Option String
  user_agent : Option String
  expires_at : Int
  last_activity_at : Option Int
  created_at : Int
deriving DecidableEq

/-- A row of the `api_keys` table as selected by this module's JOIN. -/
structure ApiKeyRow where
  id : Nat
  api_name : String
  api_type : String
  permissions : List String
  is_active : Bool
deriving DecidableEq

/-- The database state seen by `SessionManager`. -/
structure Store where
  sessions : List SessionRow
  api_keys : List ApiKeyRow
deriving DecidableEq

/-- The joined row returned by `verify_session` on success. -/
structure SessionInfo where
  id : Nat
  session_token : String
  api_key_id : Nat
  device_id : Option String
  ip_address : Option String
  user_agent : Option String
  expires_at : Int
  last_activity_at : Option Int
  created_at : Int
  api_name : String
  api_type : String
  permissions : List String
  is_active : Bool
deriving DecidableEq

/-- The `SELECT … FROM sessions s JOIN api_keys a ON s.api_key_id = a.id
WHERE s.session_token = %s` of `verify_session`, `fetchone()`: the first
session row carrying the token, paired with its owning credential; the
inner join drops the row when the credential is missing. -/
def joinByToken (store : Store) (session_token : String) :
    Option (SessionRow × ApiKeyRow) :=
  match store.sessions.find? (fun s => s.session_token == session_token) with
  | none => none
  | some s =>
    match store.api_keys.find? (fun a => a.id == s.api_key_id) with
    | none => none
    | some a => some (s, a)

/-- `SessionManager.verify_session`.  Fails (returns `none`, with the
store untouched) when the token is unknown, the owning credential is
inactive, or the session is expired; on success stamps
`last_activity_at` and returns the joined row (with the `last_activity_at`
value read *before* the update, as the SELECT ran first). -/
def verify_session (store : Store) (session_token : String) (now : Int) :
    Store × Option SessionInfo :=
  match joinByToken store session_token with
  | none => (store, none)
  | some (s, a) =>
    if !a.is_active then
      (store, none)
    else if s.expires_at < now then
      (store, none)
    else
      let store' := { store with
        sessions := updateWhere (fun r => r.id == s.id)
          (fun r => { r with last_activity_at := some now }) store.sessions }
      (store', some
        { id := s.id, session_token := s.session_token,
          api_key_id := s.api_key_id, device_id := s.device_id,
          ip_address := s.ip_address, user_agent := s.user_agent,
          expires_at := s.expires_at, last_activity_at := s.last_activity_at,
          created_at := s.created_at, api_name := a.api_name,
          api_type := a.api_type, permissions := a.permissions,
          is_active := a.is_active })

end SM

namespace Grpc

/-!
Embedding of the command channel of `ControlCenterService`
(`backend/grpc_server.py`): `_verify_token`, `PullCommands` (one poll
cycle of the streaming loop) and `ReportResult`.  Rows follow
`backend/models.py`.
-/

/-- A row of the `devices` table (the columns `_verify_token` reads;
`ReportResult` and `PullCommands` touch devices only through it). -/
structure DeviceRow where
  device_id : String
  token : String
deriving DecidableEq

/-- A row of the `commands` table (`models.py`): result columns are
nullable, `status` defaults to `"pending"`, `success` to `false`. -/
structure CommandRow where
  command_id : String
  device_id : String
  command_type : String
  payload : String
  timeout : Nat
  status : String
  success : Bool
  stdout : Option String
  stderr : Option String
  exit_code : Option Int
  executed_at : Option Int
  duration_ms : Option Nat
  created_at : Int
deriving DecidableEq

/-- The database state seen by the gRPC servicer. -/
structure HubState where
  devices : List DeviceRow
  commands : List CommandRow
deriving DecidableEq

/-- The `pb2.CommandResult` request message of `ReportResult`. -/
structure CommandResultMsg where
  device_id : String
  token : String
  command_id : String
  success : Bool
  stdout : String
  stderr : String
  exit_code : Int
  executed_at : Int
  duration_ms : Nat
deriving DecidableEq

/-- The `pb2.PullCommandsRequest` message. -/
structure PullRequest where
  device_id : String
  token : String
deriving DecidableEq

/-- The `pb2.Command` message yielded by `PullCommands`. -/
structure CommandMsg where
  command_id : String
  command_type : String
  payload : String
  created_at : Int
  timeout : Nat
deriving DecidableEq

/-- The `pb2.ReportResponse` message. -/
structure ReportResponse where
  success : Bool
  message : String
deriving DecidableEq

/-- `ControlCenterService._verify_token`: a device row with this id and
token exists. -/
def verify_token (s : HubState) (device_id token : String) : Bool :=
  (s.devices.find? (fun d => d.device_id == device_id && d.token == token)).isSome

/-- `ReportResult`'s update of the first command matching
`filter_by(command_id=…)`: every result column is overwritten from the
request and the status becomes `"completed"` or `"failed"` according to
`request.success`, with no look at the previous status. -/
def applyResult (req : CommandResultMsg) (c : CommandRow) : CommandRow :=
  { c with
    status := if req.success then "completed" else "failed",
    success := req.success,
    stdout := some req.stdout,
    stderr := some req.stderr,
    exit_code := some req.exit_code,
    executed_at := some req.executed_at,
    duration_ms := some req.duration_ms }

/-- `ControlCenterService.ReportResult` (lines 264–323): token check,
then `query(Command).filter_by(command_id=…).first()`; if found, the
result columns and status are overwritten unconditionally (the audit-log
insert is not modelled). -/
def reportResult (s : HubState) (req : CommandResultMsg) :
    HubState × ReportResponse :=
  if !verify_token s req.device_id req.token then
    (s, { success := false, message := "Invalid token" })
  else
    match s.commands.find? (fun c => c.command_id == req.command_id) with
    | none => (s, { success := false, message := "Command not found" })
    | some _ =>
      let commands' := updateFirst (fun c => c.command_id == req.command_id)
        (applyResult req) s.commands
      ({ s with commands := commands' },
       { success := true, message := "Result recorded" })

/-- Comparison used by `order_by(Command.created_at)`. -/
def leCreated (a b : CommandRow) : Bool :=
  a.created_at ≤ b.created_at

/-- The pending commands of a device
(`filter_by(device_id=…, status="pending")`). -/
def pendingFor (s : HubState) (device_id : String) : List CommandRow :=
  s.commands.filter (fun c => c.device_id == device_id && c.status == "pending")

/-- The batch fetched by one poll:
`filter_by(device_id=…, status="pending").order_by(created_at).limit(10)`. -/
def batchFor (s : HubState) (device_id : String) : List CommandRow :=
  ((pendingFor s device_id).mergeSort leCreated).take 10

/-- The `pb2.Command` message built from a fetched row. -/
def toMsg (c : CommandRow) : CommandMsg :=
  { command_id := c.command_id, command_type := c.command_type,
    payload := c.payload, created_at := c.created_at, timeout := c.timeout }

/-- One poll cycle of the `PullCommands` streaming loop (lines 213–262):
after the token check it selects the pending commands of the device
ordered by `created_at` with `limit(10)`, flips each selected command to
`"running"`, and yields the corresponding `pb2.Command` messages.  The
loop sets `cmd.status = "running"` on each fetched row; rows are
identified by their unique `command_id` column. -/
def pullCycle (s : HubState) (req : PullRequest) :
    HubState × List CommandMsg :=
  if !verify_token s req.device_id req.token then
    (s, [])
  else
    let batch := batchFor s req.device_id
    let commands' := s.commands.map (fun c =>
      if batch.any (fun b => b.command_id == c.command_id) then
        { c with status := "running" }
      else c)
    ({ s with commands := commands' }, batch.map toMsg)

/-- The status of the first command row with a given id, as an observer
for the lifecycle claims. -/
def statusOf (s : HubState) (command_id : String) : Option String :=
  (s.commands.find? (fun c => c.command_id == command_id)).map (·.status)

/-- Rank of a command status along the lifecycle
`pending → running → {completed, failed}`. -/
def statusRank (st : String) : Nat :=
  if st = "running" then 1
  else if st = "completed" then 2
  else if st = "failed" then 2
  else 0

/-- Rank of the first command row with a given id (0 when absent). -/
def rankOf (s : HubState) (command_id : String) : Nat :=
  match statusOf s command_id with
  | some st => statusRank st
  | none => 0

end Grpc

namespace SHA256

/-!
Pure SHA-256 (FIPS 180-4) over `Nat` with explicit `% 2^32` masking,
embedding the `hashlib.sha256(...).hexdigest()` call of
`DeviceRegistrationManager.generate_device_id`.
-/

/-- Truncation to a 32-bit word. -/
def mask32 (n : Nat) : Nat := n % 4294967296

/-- 32-bit right rotation. -/
def rotr (x n : Nat) : Nat := mask32 ((x >>> n) ||| (x <<< (32 - n)))

/-- The 64 round constants (FIPS 180-4 §4.2.2, written in decimal). -/
def K : List Nat :=
  [1116352408, 1899447441, 3049323471, 3921009573, 961987163,
   1508970993, 2453635748, 2870763221, 3624381080, 310598401,
   607225278, 1426881987, 1925078388, 2162078206, 2614888103,
   3248222580, 3835390401, 4022224774, 264347078, 604807628,
   770255983, 1249150122, 1555081692, 1996064986, 2554220882,
   2821834349, 2952996808, 3210313671, 3336571891, 3584528711,
   113926993, 338241895, 666307205, 773529912, 1294757372,
   1396182291, 1695183700, 1986661051, 2177026350, 2456956037,
   2730485921, 2820302411, 3259730800, 3345764771, 3516065817,
   3600352804, 4094571909, 275423344, 430227734, 506948616,
   659060556, 883997877, 958139571, 1322822218, 1537002063,
   1747873779, 1955562222, 2024104815, 2227730452, 2361852424,
   2428436474, 2756734187, 3204031479, 3329325298]

/-- The initial hash value (FIPS 180-4 §5.3.3, written in decimal). -/
def H0 : List Nat :=
  [1779033703, 3144134277, 1013904242, 2773480762, 1359893119,
   2600822924, 528734635, 1541459225]

/-- UTF-8 encoding of one character (Python's `str.encode('utf-8')`). -/
def utf8Bytes (c : Char) : List Nat :=
  let n := c.toNat
  if n < 0x80 then [n]
  else if n < 0x800 then
    [0xC0 ||| (n >>> 6), 0x80 ||| (n &&& 0x3F)]
  else if n < 0x10000 then
    [0xE0 ||| (n >>> 12), 0x80 ||| ((n >>> 6) &&& 0x3F), 0x80 ||| (n &&& 0x3F)]
  else
    [0xF0 ||| (n >>> 18), 0x80 ||| ((n >>> 12) &&& 0x3F),
     0x80 ||| ((n >>> 6) &&& 0x3F), 0x80 ||| (n &&& 0x3F)]

/-- UTF-8 bytes of a string. -/
def strBytes (s : String) : List Nat :=
  s.data.foldr (fun c acc => utf8Bytes c ++ acc) []

/-- Big-endian 8-byte encoding of the bit length. -/
def lenBytes (L : Nat) : List Nat :=
  (List.range 8).map (fun i => (L >>> (8 * (7 - i))) % 256)

/-- Message padding: `0x80`, zeros to 56 mod 64, then the 64-bit length. -/
def pad (msg : List Nat) : List Nat :=
  let k := (119 - msg.length % 64) % 64
  msg ++ [0x80] ++ List.replicate k 0 ++ lenBytes (msg.length * 8)

/-- Group bytes into big-endian 32-bit words. -/
def toWords : List Nat → List Nat
  | b0 :: b1 :: b2 :: b3 :: rest =>
    (((b0 * 256 + b1) * 256 + b2) * 256 + b3) :: toWords rest
  | _ => []

/-- Split into 64-byte blocks (`fuel` bounds the number of blocks; each
step consumes at least one byte, so `l.length` steps always suffice). -/
def chunksAux (fuel : Nat) (l : List Nat) : List (List Nat) :=
  match fuel, l with
  | 0, _ => []
  | _ + 1, [] => []
  | fuel + 1, x :: rest => (x :: rest.take 63) :: chunksAux fuel (rest.drop 63)

/-- Split into 64-byte blocks. -/
def chunks64 (l : List Nat) : List (List Nat) :=
  chunksAux l.length l

def smallSigma0 (x : Nat) : Nat := (rotr x 7) ^^^ (rotr x 18) ^^^ (x >>> 3)

def smallSigma1 (x : Nat) : Nat := (rotr x 17) ^^^ (rotr x 19) ^^^ (x >>> 10)

def bigSigma0 (x : Nat) : Nat := (rotr x 2) ^^^ (rotr x 13) ^^^ (rotr x 22)

def bigSigma1 (x : Nat) : Nat := (rotr x 6) ^^^ (rotr x 11) ^^^ (rotr x 25)

def ch (x y z : Nat) : Nat := (x &&& y) ^^^ ((x ^^^ 0xFFFFFFFF) &&& z)

def maj (x y z : Nat) : Nat := (x &&& y) ^^^ (x &&& z) ^^^ (y &&& z)

/-- Extend the 16-word block schedule by `n` further words. -/
def extendSchedule (w : List Nat) : Nat → List Nat
  | 0 => w
  | n + 1 =>
    let t := w.length
    let wt := mask32 (smallSigma1 (w.getD (t - 2) 0) + w.getD (t - 7) 0 +
                      smallSigma0 (w.getD (t - 15) 0) + w.getD (t - 16) 0)
    extendSchedule (w ++ [wt]) n

/-- The eight working variables of the compression loop. -/
structure Regs where
  a : Nat
  b : Nat
  c : Nat
  d : Nat
  e : Nat
  f : Nat
  g : Nat
  h : Nat

/-- One round of the compression loop. -/
def round (st : Regs) (kt wt : Nat) : Regs :=
  let t1 := mask32 (st.h + bigSigma1 st.e + ch st.e st.f st.g + kt + wt)
  let t2 := mask32 (bigSigma0 st.a + maj st.a st.b st.c)
  { a := mask32 (t1 + t2), b := st.a, c := st.b, d := st.c,
    e := mask32 (st.d + t1), f := st.e, g := st.f, h := st.g }

/-- Compress one 64-byte block into the running hash value. -/
def compressBlock (hv : List Nat) (block : List Nat) : List Nat :=
  let w := extendSchedule (toWords block) 48
  let st0 : Regs :=
    { a := hv.getD 0 0, b := hv.getD 1 0, c := hv.getD 2 0, d := hv.getD 3 0,
      e := hv.getD 4 0, f := hv.getD 5 0, g := hv.getD 6 0, h := hv.getD 7 0 }
  let stN := (K.zip w).foldl (fun st kw => round st kw.1 kw.2) st0
  [mask32 (hv.getD 0 0 + stN.a), mask32 (hv.getD 1 0 + stN.b),
   mask32 (hv.getD 2 0 + stN.c), mask32 (hv.getD 3 0 + stN.d),
   mask32 (hv.getD 4 0 + stN.e), mask32 (hv.getD 5 0 + stN.f),
   mask32 (hv.getD 6 0 + stN.g), mask32 (hv.getD 7 0 + stN.h)]

/-- Lower-case hex digit. -/
def hexDigit (n : Nat) : Char :=
  if n < 10 then Char.ofNat (48 + n) else Char.ofNat (87 + n)

/-- Eight hex characters of one 32-bit word. -/
def wordHex (w : Nat) : List Char :=
  (List.range 8).map (fun i => hexDigit ((w >>> (4 * (7 - i))) % 16))

/-- `hashlib.sha256(s.encode('utf-8')).hexdigest()`. -/
def sha256hex (s : String) : String :=
  let digest := (chunks64 (pad (strBytes s))).foldl compressBlock H0
  ⟨digest.foldr (fun w acc => wordHex w ++ acc) []⟩

end SHA256

namespace Reg

/-!
Embedding of `DeviceRegistrationManager` (`backend/device_registration.py`):
`generate_device_id` (lines 74–90) and `register_device` (lines 92–166).
Device metadata is a JSON object, modelled as an association list.
-/

/-- A row of the `devices` table as used by this module.  The INSERT does
not list `last_seen_at` or `registered_at`; the schema defaults stamp
them with the current time (`DeviceResponse` declares both non-null). -/
structure DeviceRow where
  device_id : String
  device_name : String
  hostname : String
  ip_address : String
  os_type : String
  os_version : String
  agent_version : String
  metadata : List (String × String)
  status : String
  last_seen_at : Int
  registered_at : Int
deriving DecidableEq

/-- `DeviceRegistrationManager.generate_device_id`: the first 16 hex
characters of `sha256(f"{ip_address}:{hostname}")`, prefixed. -/
def generate_device_id (ip_address hostname : String) : String :=
  "device-" ++ (SHA256.sha256hex (ip_address ++ ":" ++ hostname)).take 16

/-- `DeviceRegistrationManager.register_device`: derives the id, then
either updates the existing row (replacing the mutable columns and the
metadata wholesale, `status = 'online'`, `last_seen_at = now`) or inserts
a fresh row with `status = 'online'`.  `Json(metadata or {})` maps a
missing metadata argument to the empty object. -/
def register_device (db : List DeviceRow) (hostname ip_address os_type
    os_version agent_version : String)
    (metadata : Option (List (String × String))) (now : Int) :
    List DeviceRow :=
  let device_id := generate_device_id ip_address hostname
  match db.find? (fun r => r.device_id == device_id) with
  | some _ =>
    updateWhere (fun r => r.device_id == device_id)
      (fun r => { r with
        hostname := hostname, ip_address := ip_address, os_type := os_type,
        os_version := os_version, agent_version := agent_version,
        metadata := metadata.getD [], last_seen_at := now,
        status := "online" }) db
  | none =>
    db ++ [{ device_id := device_id,
             device_name := hostname ++ " (" ++ ip_address ++ ")",
             hostname := hostname, ip_address := ip_address,
             os_type := os_type, os_version := os_version,
             agent_version := agent_version, metadata := metadata.getD [],
             status := "online", last_seen_at := now, registered_at := now }]

/-- The rows carrying a given device id. -/
def rowsWithId (db : List DeviceRow) (device_id : String) : List DeviceRow :=
  db.filter (fun r => r.device_id == device_id)

end Reg

namespace HB

/-!
Embedding of `HeartbeatManager.check_offline_devices`
(`heartbeat.py`, lines 159–199).
-/

/-- The heartbeat timeout constant (`HEARTBEAT_TIMEOUT`). -/
def HEARTBEAT_TIMEOUT : Int := 300

/-- A row of the `devices` table as used by the sweep. -/
structure DeviceRow where
  device_id : String
  device_name : String
  status : String
  last_seen : Int
  metadata : List (String × String)
  registered_at : Int
deriving DecidableEq

/-- `HeartbeatManager.check_offline_devices`: selects the ids of the
devices that are `online` with `last_seen` strictly before
`now - heartbeat_timeout`, then (only when the list is non-empty) flips
every row whose id is in the list to `offline` (`device_id = ANY(%s)`),
and returns the ids.  `now` models `datetime.now()`;
`heartbeat_timeout` models `self.heartbeat_timeout` (300). -/
def check_offline_devices (db : List DeviceRow) (now heartbeat_timeout : Int) :
    List String × List DeviceRow :=
  let offline_threshold := now - heartbeat_timeout
  let offline_devices :=
    (db.filter (fun d => d.status == "online" &&
                         decide (d.last_seen < offline_threshold))).map
      (·.device_id)
  if offline_devices.isEmpty then
    (offline_devices, db)
  else
    (offline_devices,
     updateWhere (fun d => offline_devices.contains d.device_id)
       (fun d => { d with status := "offline" }) db)

end HB

/-!
## Concrete scenarios used by the claim theorems and witnesses
-/

/-- A session row owned by an inactive credential, for the C7 witness. -/
def c7Session : SM.SessionRow :=
  { id := 1, session_token := "tok-1", api_key_id := 7, device_id := none,
    ip_address := none, user_agent := none, expires_at := 1000,
    last_activity_at := none, created_at := 0 }

/-- An inactive credential row, for the C7 witness. -/
def c7ApiKey : SM.ApiKeyRow :=
  { id := 7, api_name := "ops", api_type := "web", permissions := ["*"],
    is_active := false }

/-- The store for the C7 witness. -/
def c7Store : SM.Store :=
  { sessions := [c7Session], api_keys := [c7ApiKey] }

/-- The registered device of the C1 scenario. -/
def c1Device : Grpc.DeviceRow := { device_id := "d1", token := "t1" }

/-- A command that already completed successfully with stdout `"A"`. -/
def c1Command : Grpc.CommandRow :=
  { command_id := "c1", device_id := "d1", command_type := "exec",
    payload := "ls", timeout := 30, status := "completed", success := true,
    stdout := some "A", stderr := some "", exit_code := some 0,
    executed_at := some 100, duration_ms := some 5, created_at := 10 }

/-- The C1 hub state: one device, one completed command. -/
def c1State : Grpc.HubState :=
  { devices := [c1Device], commands := [c1Command] }

/-- A second, contradictory report for the already-completed command. -/
def c1Req : Grpc.CommandResultMsg :=
  { device_id := "d1", token := "t1", command_id := "c1", success := false,
    stdout := "B", stderr := "boom", exit_code := 1, executed_at := 200,
    duration_ms := 7 }

/-- The registered device of the C2 scenario. -/
def c2Device : Grpc.DeviceRow := { device_id := "d2", token := "t2" }

/-- A still-pending command. -/
def c2Command : Grpc.CommandRow :=
  { command_id := "c2", device_id := "d2", command_type := "exec",
    payload := "pwd", timeout := 30, status := "pending", success := false,
    stdout := none, stderr := none, exit_code := none, executed_at := none,
    duration_ms := none, created_at := 10 }

/-- The C2 hub state: one device, one pending command. -/
def c2State : Grpc.HubState :=
  { devices := [c2Device], commands := [c2Command] }

/-- A result report for the still-pending command. -/
def c2Req : Grpc.CommandResultMsg :=
  { device_id := "d2", token := "t2", command_id := "c2", success := true,
    stdout := "ok", stderr := "", exit_code := 0, executed_at := 100,
    duration_ms := 3 }

/-- The registered device of the C8 scenario. -/
def c8Device : Grpc.DeviceRow := { device_id := "d8", token := "t8" }

/-- Two pending commands (created out of creation order in the table)
and a pending command of another device. -/
def c8State : Grpc.HubState :=
  { devices := [c8Device],
    commands :=
      [{ command_id := "c81", device_id := "d8", command_type := "exec",
         payload := "a", timeout := 30, status := "pending", success := false,
         stdout := none, stderr := none, exit_code := none,
         executed_at := none, duration_ms := none, created_at := 7 },
       { command_id := "c82", device_id := "d8", command_type := "exec",
         payload := "b", timeout := 30, status := "pending", success := false,
         stdout := none, stderr := none, exit_code := none,
         executed_at := none, duration_ms := none, created_at := 3 },
       { command_id := "c83", device_id := "d9", command_type := "exec",
         payload := "c", timeout := 30, status := "pending", success := false,
         stdout := none, stderr := none, exit_code := none,
         executed_at := none, duration_ms := none, created_at := 1 }] }

/-- The pull request of the C8 scenario. -/
def c8Req : Grpc.PullRequest := { device_id := "d8", token := "t8" }

/-- The derived id of the C6 scenario's device. -/
def c6Gid : String := Reg.generate_device_id "10.0.0.5" "web1"

/-- An already-registered device carrying metadata key `"a"`. -/
def c6Row : Reg.DeviceRow :=
  { device_id := c6Gid, device_name := "web1 (10.0.0.5)", hostname := "web1",
    ip_address := "10.0.0.5", os_type := "linux", os_version := "22.04",
    agent_version := "1.0.0", metadata := [("a", "1")], status := "online",
    last_seen_at := 0, registered_at := 0 }

/-- The row produced by the C6 re-registration. -/
def c6Updated : Reg.DeviceRow :=
  { device_id := c6Gid, device_name := "web1 (10.0.0.5)", hostname := "web1",
    ip_address := "10.0.0.5", os_type := "linux", os_version := "22.04",
    agent_version := "1.0.1", metadata := [("b", "2")], status := "online",
    last_seen_at := 5, registered_at := 0 }

/-- An online device whose last heartbeat is 301 seconds old, for the C9
witness. -/
def c9Device : HB.DeviceRow :=
  { device_id := "dev9", device_name := "web1", status := "online",
    last_seen := 0, metadata := [], registered_at := 0 }

/-!
## Library lemmas about the row-update combinators
-/

theorem updateFirst_of_find?_none {α} (p : α → Bool) (f : α → α) :
    ∀ l : List α, l.find? p = none → updateFirst p f l = l := by
  intro l h
  induction l with
  | nil => rfl
  | cons x xs ih =>
    rw [List.find?_cons] at h
    cases hpx : p x with
    | true => simp [hpx] at h
    | false =>
      simp only [hpx] at h
      simp [updateFirst, hpx, ih h]

theorem find?_updateFirst_pos {α} (p : α → Bool) (f : α → α) (c : α) :
    ∀ l : List α, l.find? p = some c → p (f c) = true →
    (updateFirst p f l).find? p = some (f c) := by
  intro l h hf
  induction l with
  | nil => simp at h
  | cons x xs ih =>
    rw [List.find?_cons] at h
    cases hpx : p x with
    | true =>
      simp only [hpx] at h
      obtain rfl : x = c := by injection h
      simp [updateFirst, hpx, List.find?_cons, hf]
    | false =>
      simp only [hpx] at h
      simp [updateFirst, hpx, List.find?_cons, ih h]

theorem find?_updateFirst_of_ne {α} (p q : α → Bool) (f : α → α)
    (hq : ∀ x, p x = true → q x = false)
    (hqf : ∀ x, p x = true → q (f x) = false) :
    ∀ l : List α, (updateFirst p f l).find? q = l.find? q := by
  intro l
  induction l with
  | nil => rfl
  | cons x xs ih =>
    cases hpx : p x with
    | true =>
      simp [updateFirst, hpx, List.find?_cons, hq x hpx, hqf x hpx]
    | false =>
      cases hqx : q x with
      | true => simp [updateFirst, hpx, List.find?_cons, hqx]
      | false => simp [updateFirst, hpx, List.find?_cons, hqx, ih]

theorem find?_map_pred {α} (g : α → α) (q : α → Bool)
    (h : ∀ x, q (g x) = q x) :
    ∀ l : List α, (l.map g).find? q = (l.find? q).map g := by
  intro l
  induction l with
  | nil => rfl
  | cons x xs ih =>
    cases hqx : q x with
    | true => simp [List.find?_cons, hqx, h x]
    | false => simp [List.find?_cons, hqx, h x, ih]

theorem filter_map_pred {α} (g : α → α) (q : α → Bool)
    (h : ∀ x, q (g x) = q x) :
    ∀ l : List α, (l.map g).filter q = (l.filter q).map g := by
  intro l
  induction l with
  | nil => rfl
  | cons x xs ih =>
    cases hqx : q x with
    | true => simp [List.filter_cons, hqx, h x, ih]
    | false => simp [List.filter_cons, hqx, h x, ih]

/-!
## Theorems for the claims
-/

/-- **C4** (code bug). `check_permissions` has no handling for the `"*"`
wildcard: a credential whose permission set is exactly `["*"]` — the set
every successful API-key verification returns, documented in
`api_key_manager.py` as "拥有所有权限" (has all permissions) — is denied a
request for `["device:read"]`, contradicting the claim that a wildcard
credential passes every permission requirement.  The other two parts of
the claim do hold and are evaluated alongside: `["a","b"]` passes
`["a"]` and fails `["a","c"]`, and an empty permission set allows
everything. -/
theorem c4_wildcard_not_granted :
    AuthMW.check_permissions (.apiKey ["*"]) ["device:read"] = false ∧
    AuthMW.check_permissions (.session ["*"]) ["device:read"] = false ∧
    AuthMW.check_permissions (.apiKey ["a", "b"]) ["a"] = true ∧
    AuthMW.check_permissions (.apiKey ["a", "b"]) ["a", "c"] = false ∧
    AuthMW.check_permissions (.apiKey []) ["device:read"] = true := by
  decide

/-- **C3** (code bug). `verify_api_key` never compares the supplied
secret against anything (no secret hash is persisted), so verification
with a wrong secret succeeds: for a key created with secret
`"correct_secret"`, verification with `"wrong_secret"` returns the
credential, and its result is identical to verification with the correct
secret.  The module's own test
(`test_api_key_manager.py::test_verify_api_key_wrong_secret`) asserts the
wrong-secret call must return `None`. -/
theorem c3_wrong_secret_accepted :
    ∃ (s : AK.Store) (r : AK.CreatedKeyInfo),
      AK.create_api_key AK.emptyStore "Test API" "internal" "correct_secret"
        (some ["device:read"]) none 0 "test_api_key_1" = .ok (s, r) ∧
      ((AK.verify_api_key s "test_api_key_1" "wrong_secret" 5).2).isSome = true ∧
      (AK.verify_api_key s "test_api_key_1" "wrong_secret" 5).2 =
        (AK.verify_api_key s "test_api_key_1" "correct_secret" 5).2 := by
  refine ⟨_, _, rfl, ?_, ?_⟩ <;> decide

/-- **C7** (confirmed). `verify_session` returns the same failure value —
`none` — whether the token is unknown (no joined row), the owning
credential is inactive, or the session is expired, so the caller cannot
tell the three failure cases apart. -/
theorem c7_verify_session_failures_return_none
    (store : SM.Store) (token : String) (now : Int)
    (h : SM.joinByToken store token = none ∨
         ∃ s a, SM.joinByToken store token = some (s, a) ∧
           (a.is_active = false ∨ s.expires_at < now)) :
    (SM.verify_session store token now).2 = none := by
  unfold SM.verify_session
  rcases h with h | ⟨s, a, hj, hcase⟩
  · rw [h]
  · rw [hj]
    rcases hcase with hin | hexp
    · simp [hin]
    · cases hia : a.is_active
      · simp [hia]
      · simp [hia, hexp]

/-- Witness for C7: a concrete store whose only session joins to an
inactive credential; verification returns `none`. -/
theorem c7_verify_session_failures_return_none_witness :
    SM.joinByToken c7Store "tok-1" = some (c7Session, c7ApiKey) ∧
    c7ApiKey.is_active = false ∧
    (SM.verify_session c7Store "tok-1" 50).2 = none := by
  refine ⟨by decide, rfl, ?_⟩
  exact c7_verify_session_failures_return_none c7Store "tok-1" 50
    (Or.inr ⟨c7Session, c7ApiKey, by decide, Or.inl rfl⟩)

/-- **C10** (confirmed). `create_api_key` persists neither the supplied
permissions nor the secret hash nor the `api_type`, so two credentials
created with different permission lists (and secrets, and valid caller
classes) yield the *same* database state and are indistinguishable to
every later `verify_api_key` call; and every successful verification
hardcodes caller class `"web"` with permission set `["*"]`. -/
theorem c10_identity_independent_of_creation
    (store : AK.Store) (api_name t₁ t₂ sec₁ sec₂ : String)
    (p₁ p₂ : Option (List String)) (ed : Option Nat) (now : Int) (fk : String)
    (s₁ s₂ : AK.Store) (r₁ r₂ : AK.CreatedKeyInfo)
    (ht₁ : t₁ ∈ (["web", "external", "internal"] : List String))
    (ht₂ : t₂ ∈ (["web", "external", "internal"] : List String))
    (h₁ : AK.create_api_key store api_name t₁ sec₁ p₁ ed now fk = .ok (s₁, r₁))
    (h₂ : AK.create_api_key store api_name t₂ sec₂ p₂ ed now fk = .ok (s₂, r₂)) :
    s₁ = s₂ ∧
    (∀ (k sec : String) (now' : Int),
        AK.verify_api_key s₁ k sec now' = AK.verify_api_key s₂ k sec now') ∧
    (∀ (st st' : AK.Store) (k sec : String) (n : Int) (r : AK.ApiKeyInfo),
        AK.verify_api_key st k sec n = (st', some r) →
        r.api_type = "web" ∧ r.permissions = ["*"]) := by
  have hs : s₁ = s₂ := by
    simp only [AK.create_api_key, if_neg (not_not_intro ht₁),
      if_neg (not_not_intro ht₂), Except.ok.injEq, Prod.mk.injEq] at h₁ h₂
    exact h₁.1 ▸ h₂.1 ▸ rfl
  refine ⟨hs, fun k sec now' => hs ▸ rfl, ?_⟩
  intro st st' k sec n r h
  unfold AK.verify_api_key at h
  split at h
  · obtain ⟨-, hr⟩ := Prod.mk.injEq .. ▸ h
    obtain rfl : AK.breakGlassInfo = r := by injection hr
    exact ⟨rfl, rfl⟩
  · split at h
    · simp at h
    · split at h
      · simp at h
      · split at h
        · simp at h
        · obtain ⟨-, hr⟩ := Prod.mk.injEq .. ▸ h
          have hr' := Option.some.inj hr
          exact ⟨hr' ▸ rfl, hr' ▸ rfl⟩

/-- Witness for C10: two creations from the empty store with different
caller classes, secrets and permission lists produce equal stores. -/
theorem c10_identity_independent_of_creation_witness :
    (∃ s₁ r₁ s₂ r₂,
      AK.create_api_key AK.emptyStore "svc" "web" "s1" (some ["a"]) none 0 "k1" =
        .ok (s₁, r₁) ∧
      AK.create_api_key AK.emptyStore "svc" "external" "s2" (some ["b"]) none 0 "k1" =
        .ok (s₂, r₂) ∧
      s₁ = s₂) := by
  refine ⟨_, _, _, _, rfl, rfl, ?_⟩
  exact (c10_identity_independent_of_creation AK.emptyStore "svc" "web" "external"
    "s1" "s2" (some ["a"]) (some ["b"]) none 0 "k1" _ _ _ _
    (by decide) (by decide) rfl rfl).1

/-!
## Command-channel lemmas shared by the lifecycle claims
-/

/-- A row in a fetched batch is a pending row of the device. -/
theorem mem_batchFor {s : Grpc.HubState} {dev : String} {b : Grpc.CommandRow}
    (hb : b ∈ Grpc.batchFor s dev) :
    b ∈ s.commands ∧ b.device_id = dev ∧ b.status = "pending" := by
  have h1 : b ∈ (Grpc.pendingFor s dev).mergeSort Grpc.leCreated :=
    List.mem_of_mem_take hb
  have h2 : b ∈ Grpc.pendingFor s dev := List.mem_mergeSort.mp h1
  have h3 := List.mem_filter.mp h2
  have h4 := h3.2
  rw [Bool.and_eq_true, beq_iff_eq, beq_iff_eq] at h4
  exact ⟨h3.1, h4.1, h4.2⟩

/-- Status ranks are bounded by the terminal rank. -/
theorem statusRank_le_two (st : String) : Grpc.statusRank st ≤ 2 := by
  unfold Grpc.statusRank
  split_ifs <;> omega

/-- Ranks of stored commands are bounded by the terminal rank. -/
theorem rankOf_le_two (s : Grpc.HubState) (cid : String) :
    Grpc.rankOf s cid ≤ 2 := by
  unfold Grpc.rankOf
  cases Grpc.statusOf s cid with
  | none => exact Nat.zero_le 2
  | some st => exact statusRank_le_two st

/-!
## C1: reporting a result for an already-terminal command
-/

/-- **C1** counterexample: reporting a result for a command that is
already `completed` is *not* a no-op — the second call flips the status
to `failed` and replaces the stored stdout (and the state changes). -/
theorem c1_counterexample :
    Grpc.statusOf c1State "c1" = some "completed" ∧
    Grpc.statusOf (Grpc.reportResult c1State c1Req).1 "c1" = some "failed" ∧
    ((Grpc.reportResult c1State c1Req).1.commands.find?
        (fun x => x.command_id == "c1")).map (·.stdout) = some (some "B") ∧
    (Grpc.reportResult c1State c1Req).1 ≠ c1State := by
  refine ⟨rfl, rfl, rfl, ?_⟩
  decide

/-- **C1** (corrected, amended claim): `ReportResult` never inspects the
current status, so calling it on an already-terminal (completed or
failed) command *overwrites* the stored status and result fields with the
newly reported ones — last write wins — instead of being a no-op. -/
theorem c1_report_overwrites_terminal
    (s : Grpc.HubState) (req : Grpc.CommandResultMsg) (c : Grpc.CommandRow)
    (hvt : Grpc.verify_token s req.device_id req.token = true)
    (hc : s.commands.find? (fun x => x.command_id == req.command_id) = some c)
    (_hterm : c.status = "completed" ∨ c.status = "failed") :
    (Grpc.reportResult s req).1.commands.find?
        (fun x => x.command_id == req.command_id) =
      some (Grpc.applyResult req c) := by
  have hpc : (fun x : Grpc.CommandRow => x.command_id == req.command_id)
      (Grpc.applyResult req c) = true := by
    have := List.find?_some hc
    simpa [Grpc.applyResult] using this
  simp only [Grpc.reportResult, hvt, Bool.not_true, Bool.false_eq_true,
    if_false, hc]
  exact find?_updateFirst_pos _ _ c s.commands hc hpc

/-- Witness for C1's amended claim at the concrete C1 scenario. -/
theorem c1_report_overwrites_terminal_witness :
    Grpc.verify_token c1State c1Req.device_id c1Req.token = true ∧
    c1State.commands.find? (fun x => x.command_id == c1Req.command_id) =
      some c1Command ∧
    (c1Command.status = "completed" ∨ c1Command.status = "failed") ∧
    (Grpc.reportResult c1State c1Req).1.commands.find?
        (fun x => x.command_id == c1Req.command_id) =
      some (Grpc.applyResult c1Req c1Command) := by
  refine ⟨by decide, by decide, Or.inl rfl, ?_⟩
  exact c1_report_overwrites_terminal c1State c1Req c1Command
    (by decide) (by decide) (Or.inl rfl)

/-!
## C2: forward-only lifecycle
-/

/-- **C2** counterexample: `ReportResult` transitions a command that is
still `pending` directly to the terminal state `completed`, skipping
`running` — the transition the claim says never happens. -/
theorem c2_counterexample :
    Grpc.statusOf c2State "c2" = some "pending" ∧
    Grpc.statusOf (Grpc.reportResult c2State c2Req).1 "c2" = some "completed" := by
  exact ⟨rfl, rfl⟩

/-- **C2** (corrected, amended claim): the status rank
(`pending = 0 < running = 1 < completed/failed = 2`) never decreases
under `ReportResult` or a `PullCommands` poll cycle (the latter under the
schema's uniqueness of `command_id`), and ranks never exceed the terminal
rank — so a command never returns to pending or running after reaching a
terminal state.  However `ReportResult` ignores the current status, so a
pending command can jump directly to a terminal state (see the
counterexample); within the terminal rank a second report may still flip
`completed` to `failed` (claim C1). -/
theorem c2_status_rank_monotone :
    (∀ (s : Grpc.HubState) (req : Grpc.CommandResultMsg) (cid : String),
       Grpc.rankOf s cid ≤ Grpc.rankOf (Grpc.reportResult s req).1 cid) ∧
    (∀ (s : Grpc.HubState) (req : Grpc.PullRequest) (cid : String),
       (s.commands.map (·.command_id)).Nodup →
       Grpc.rankOf s cid ≤ Grpc.rankOf (Grpc.pullCycle s req).1 cid) ∧
    (∀ (s : Grpc.HubState) (cid : String), Grpc.rankOf s cid ≤ 2) := by
  refine ⟨?_, ?_, fun s cid => rankOf_le_two s cid⟩
  · intro s req cid
    cases hvt : Grpc.verify_token s req.device_id req.token with
    | false =>
      have hst : (Grpc.reportResult s req).1 = s := by
        simp [Grpc.reportResult, hvt]
      rw [hst]
    | true =>
      cases hf : s.commands.find? (fun c => c.command_id == req.command_id) with
      | none =>
        have hst : (Grpc.reportResult s req).1 = s := by
          simp [Grpc.reportResult, hvt, hf]
        rw [hst]
      | some c =>
        have hcmds : (Grpc.reportResult s req).1.commands =
            updateFirst (fun x => x.command_id == req.command_id)
              (Grpc.applyResult req) s.commands := by
          simp [Grpc.reportResult, hvt, hf]
        by_cases hcid : cid = req.command_id
        · subst hcid
          have hpc : (fun x : Grpc.CommandRow => x.command_id == req.command_id)
              (Grpc.applyResult req c) = true := by
            have := List.find?_some hf
            simpa [Grpc.applyResult] using this
          unfold Grpc.rankOf Grpc.statusOf
          rw [hcmds, find?_updateFirst_pos _ _ c s.commands hf hpc, hf]
          simp only [Option.map_some']
          have h2 := statusRank_le_two c.status
          have hterm : Grpc.statusRank (Grpc.applyResult req c).status = 2 := by
            cases hs : req.success <;>
              simp [Grpc.applyResult, hs, Grpc.statusRank]
          omega
        · have hq : ∀ x : Grpc.CommandRow,
              (x.command_id == req.command_id) = true →
              (x.command_id == cid) = false := by
            intro x hx
            rw [beq_iff_eq] at hx
            rw [beq_eq_false_iff_ne, hx]
            exact fun h => hcid h.symm
          have hqf : ∀ x : Grpc.CommandRow,
              (x.command_id == req.command_id) = true →
              ((Grpc.applyResult req x).command_id == cid) = false := by
            intro x hx
            rw [beq_iff_eq] at hx
            rw [beq_eq_false_iff_ne]
            show Grpc.CommandRow.command_id { x with
              status := if req.success then "completed" else "failed",
              success := req.success, stdout := some req.stdout,
              stderr := some req.stderr, exit_code := some req.exit_code,
              executed_at := some req.executed_at,
              duration_ms := some req.duration_ms } ≠ cid
            rw [hx]
            exact fun h => hcid h.symm
          unfold Grpc.rankOf Grpc.statusOf
          rw [hcmds, find?_updateFirst_of_ne _ _ _ hq hqf]
  · intro s req cid hnd
    cases hvt : Grpc.verify_token s req.device_id req.token with
    | false =>
      have hst : (Grpc.pullCycle s req).1 = s := by
        simp [Grpc.pullCycle, hvt]
      rw [hst]
    | true =>
      have hcmds : (Grpc.pullCycle s req).1.commands =
          s.commands.map (fun c =>
            if (Grpc.batchFor s req.device_id).any
                (fun b => b.command_id == c.command_id) then
              { c with status := "running" }
            else c) := by
        simp [Grpc.pullCycle, hvt]
      have hpres : ∀ x : Grpc.CommandRow,
          ((fun c =>
            if (Grpc.batchFor s req.device_id).any
                (fun b => b.command_id == c.command_id) then
              { c with status := "running" }
            else c) x).command_id = x.command_id := by
        intro x
        by_cases hx : (Grpc.batchFor s req.device_id).any
            (fun b => b.command_id == x.command_id) = true <;> simp [hx]
      have hfind : (s.commands.map (fun c =>
            if (Grpc.batchFor s req.device_id).any
                (fun b => b.command_id == c.command_id) then
              { c with status := "running" }
            else c)).find? (fun c => c.command_id == cid) =
          (s.commands.find? (fun c => c.command_id == cid)).map (fun c =>
            if (Grpc.batchFor s req.device_id).any
                (fun b => b.command_id == c.command_id) then
              { c with status := "running" }
            else c) :=
        find?_map_pred _ _
          (fun x => congrArg (fun i => i == cid) (hpres x)) s.commands
      unfold Grpc.rankOf Grpc.statusOf
      rw [hcmds, hfind]
      cases hf : s.commands.find? (fun c => c.command_id == cid) with
      | none => exact Nat.le_refl _
      | some c =>
        simp only [Option.map_some']
        by_cases hcond : (Grpc.batchFor s req.device_id).any
            (fun b => b.command_id == c.command_id) = true
        · obtain ⟨b, hbmem, hbid⟩ := List.any_eq_true.mp hcond
          rw [beq_iff_eq] at hbid
          have hb := mem_batchFor hbmem
          have hcmem : c ∈ s.commands := List.mem_of_find?_eq_some hf
          have hbc : b = c :=
            List.inj_on_of_nodup_map hnd hb.1 hcmem hbid
          have hcp : c.status = "pending" := hbc ▸ hb.2.2
          simp [hcond, hcp, Grpc.statusRank]
        · simp [hcond]

/-- Witness for C2's amended claim: the pull-cycle monotonicity applied
to the concrete C2 state (whose command ids are distinct). -/
theorem c2_status_rank_monotone_witness :
    (c2State.commands.map (·.command_id)).Nodup ∧
    Grpc.rankOf c2State "c2" ≤
      Grpc.rankOf (Grpc.pullCycle c2State { device_id := "d2", token := "t2" }).1 "c2" := by
  refine ⟨by decide, ?_⟩
  exact c2_status_rank_monotone.2.1 c2State { device_id := "d2", token := "t2" }
    "c2" (by decide)

/-!
## C8: FIFO claiming without redelivery
-/

/-- A poll cycle with an invalid token yields nothing and leaves the
state unchanged. -/
theorem pullCycle_token_fail (s : Grpc.HubState) (req : Grpc.PullRequest)
    (h : Grpc.verify_token s req.device_id req.token = false) :
    Grpc.pullCycle s req = (s, []) := by
  simp [Grpc.pullCycle, h]

/-- The messages yielded by a poll cycle with a valid token. -/
theorem pullCycle_snd_token_ok (s : Grpc.HubState) (req : Grpc.PullRequest)
    (h : Grpc.verify_token s req.device_id req.token = true) :
    (Grpc.pullCycle s req).2 =
      (Grpc.batchFor s req.device_id).map Grpc.toMsg := by
  simp [Grpc.pullCycle, h]

/-- The command table produced by a poll cycle with a valid token. -/
theorem pullCycle_fst_token_ok (s : Grpc.HubState) (req : Grpc.PullRequest)
    (h : Grpc.verify_token s req.device_id req.token = true) :
    (Grpc.pullCycle s req).1.commands =
      s.commands.map (fun c =>
        if (Grpc.batchFor s req.device_id).any
            (fun b => b.command_id == c.command_id) then
          { c with status := "running" }
        else c) := by
  simp [Grpc.pullCycle, h]

/-- **C8** (confirmed). A `PullCommands` poll cycle with a valid device
token claims `min(10, #pending)` commands; the yielded messages are in
creation-time (FIFO) order; each corresponds to a pending command of the
device whose every row is `running` in the resulting state; and a second
poll cycle from the resulting state — for any request, with no
intervening create — never yields a command id already yielded. -/
theorem c8_pull_fifo_no_redelivery
    (s : Grpc.HubState) (req : Grpc.PullRequest)
    (hvt : Grpc.verify_token s req.device_id req.token = true) :
    (Grpc.pullCycle s req).2.length =
        min 10 (Grpc.pendingFor s req.device_id).length ∧
    (Grpc.pullCycle s req).2.Pairwise
        (fun a b => a.created_at ≤ b.created_at) ∧
    (∀ m ∈ (Grpc.pullCycle s req).2, ∃ c ∈ s.commands,
        c.command_id = m.command_id ∧ c.device_id = req.device_id ∧
        c.status = "pending" ∧ c.created_at = m.created_at ∧
        ∀ x ∈ (Grpc.pullCycle s req).1.commands,
          x.command_id = m.command_id → x.status = "running") ∧
    (∀ (req₂ : Grpc.PullRequest) (m₂ m : Grpc.CommandMsg),
        m₂ ∈ (Grpc.pullCycle (Grpc.pullCycle s req).1 req₂).2 →
        m ∈ (Grpc.pullCycle s req).2 → m₂.command_id ≠ m.command_id) := by
  have hmsgs := pullCycle_snd_token_ok s req hvt
  have hcmds := pullCycle_fst_token_ok s req hvt
  have h3 : ∀ m ∈ (Grpc.pullCycle s req).2, ∃ c ∈ s.commands,
      c.command_id = m.command_id ∧ c.device_id = req.device_id ∧
      c.status = "pending" ∧ c.created_at = m.created_at ∧
      ∀ x ∈ (Grpc.pullCycle s req).1.commands,
        x.command_id = m.command_id → x.status = "running" := by
    intro m hm
    rw [hmsgs] at hm
    obtain ⟨b, hbmem, rfl⟩ := List.mem_map.mp hm
    have hb := mem_batchFor hbmem
    refine ⟨b, hb.1, rfl, hb.2.1, hb.2.2, rfl, ?_⟩
    intro x hx hxid
    rw [hcmds] at hx
    obtain ⟨c0, hc0, rfl⟩ := List.mem_map.mp hx
    by_cases hcond : (Grpc.batchFor s req.device_id).any
        (fun b' => b'.command_id == c0.command_id) = true
    · simp [hcond]
    · exfalso
      simp only [hcond, if_false, Bool.false_eq_true] at hxid
      rw [Bool.not_eq_true, List.any_eq_false] at hcond
      exact hcond b hbmem (by rw [beq_iff_eq, hxid]; rfl)
  refine ⟨?_, ?_, h3, ?_⟩
  · rw [hmsgs]
    simp [Grpc.batchFor]
  · rw [hmsgs]
    have htrans : ∀ a b c : Grpc.CommandRow,
        Grpc.leCreated a b → Grpc.leCreated b c → Grpc.leCreated a c := by
      intro a b c hab hbc
      simp only [Grpc.leCreated, decide_eq_true_eq] at *
      omega
    have htotal : ∀ a b : Grpc.CommandRow,
        Grpc.leCreated a b || Grpc.leCreated b a := by
      intro a b
      simp only [Grpc.leCreated, Bool.or_eq_true, decide_eq_true_eq]
      omega
    have hsorted := List.sorted_mergeSort htrans htotal
      (Grpc.pendingFor s req.device_id)
    have hbatch : (Grpc.batchFor s req.device_id).Pairwise
        (fun a b => Grpc.leCreated a b) :=
      hsorted.sublist (List.take_sublist 10 _)
    rw [List.pairwise_map]
    exact hbatch.imp (fun hab => by
      simpa [Grpc.leCreated, Grpc.toMsg] using hab)
  · intro req₂ m₂ m hm₂ hm heq
    cases hvt₂ : Grpc.verify_token (Grpc.pullCycle s req).1
        req₂.device_id req₂.token with
    | false =>
      rw [pullCycle_token_fail _ _ hvt₂] at hm₂
      exact absurd hm₂ (List.not_mem_nil m₂)
    | true =>
      rw [pullCycle_snd_token_ok _ _ hvt₂] at hm₂
      obtain ⟨b₂, hb₂mem, rfl⟩ := List.mem_map.mp hm₂
      have hb₂ := mem_batchFor hb₂mem
      obtain ⟨c, -, -, -, -, -, hrun⟩ := h3 m hm
      have : b₂.status = "running" := hrun b₂ hb₂.1 heq
      rw [hb₂.2.2] at this
      exact absurd this (by decide)

/-- Witness for C8 at a concrete state with a valid token. -/
theorem c8_pull_fifo_no_redelivery_witness :
    Grpc.verify_token c8State c8Req.device_id c8Req.token = true ∧
    (Grpc.pullCycle c8State c8Req).2.length =
        min 10 (Grpc.pendingFor c8State c8Req.device_id).length ∧
    (Grpc.pullCycle c8State c8Req).2.Pairwise
        (fun a b => a.created_at ≤ b.created_at) :=
  ⟨by decide, (c8_pull_fifo_no_redelivery c8State c8Req (by decide)).1,
   (c8_pull_fifo_no_redelivery c8State c8Req (by decide)).2.1⟩

/-!
## C5 and C6: device registration
-/

/-- Filtering by an id commutes with an id-preserving `updateWhere`. -/
theorem rowsWithId_updateWhere (db : List Reg.DeviceRow) (gid : String)
    (g : Reg.DeviceRow → Reg.DeviceRow)
    (hg : ∀ r, (g r).device_id = r.device_id) :
    Reg.rowsWithId (updateWhere (fun r => r.device_id == gid) g db) gid =
      (Reg.rowsWithId db gid).map g := by
  unfold Reg.rowsWithId updateWhere
  rw [filter_map_pred _ _ (fun x => by
    by_cases hx : (x.device_id == gid) = true
    · have : ((if (x.device_id == gid) = true then g x else x).device_id == gid)
          = ((g x).device_id == gid) := by rw [if_pos hx]
      rw [this, hg x]
    · have : (if (x.device_id == gid) = true then g x else x) = x :=
        if_neg hx
      rw [this])]
  exact List.map_congr_left (fun x hx => by
    rw [if_pos (List.mem_filter.mp hx).2])

/-- One `register_device` call leaves exactly `max(#before, 1)` rows with
the derived id, all of them online, stamped with `now`, and carrying
exactly the metadata argument (defaulted to the empty object). -/
theorem register_device_step (db : List Reg.DeviceRow)
    (hostname ip ot ov av : String) (md : Option (List (String × String)))
    (now : Int) :
    (Reg.rowsWithId (Reg.register_device db hostname ip ot ov av md now)
        (Reg.generate_device_id ip hostname)).length =
      max (Reg.rowsWithId db (Reg.generate_device_id ip hostname)).length 1 ∧
    ∀ r ∈ Reg.rowsWithId (Reg.register_device db hostname ip ot ov av md now)
        (Reg.generate_device_id ip hostname),
      r.status = "online" ∧ r.last_seen_at = now ∧ r.metadata = md.getD [] := by
  cases hf : db.find?
      (fun r => r.device_id == Reg.generate_device_id ip hostname) with
  | none =>
    have hempty : Reg.rowsWithId db (Reg.generate_device_id ip hostname) = [] := by
      unfold Reg.rowsWithId
      rw [List.filter_eq_nil_iff]
      intro r hr
      exact (List.find?_eq_none.mp hf) r hr
    have hreg : Reg.register_device db hostname ip ot ov av md now =
        db ++ [{ device_id := Reg.generate_device_id ip hostname,
                 device_name := hostname ++ " (" ++ ip ++ ")",
                 hostname := hostname, ip_address := ip, os_type := ot,
                 os_version := ov, agent_version := av,
                 metadata := md.getD [], status := "online",
                 last_seen_at := now, registered_at := now }] := by
      simp only [Reg.register_device, hf]
    rw [hreg]
    unfold Reg.rowsWithId
    rw [List.filter_append]
    unfold Reg.rowsWithId at hempty
    rw [hempty]
    constructor
    · simp
    · intro r hr
      simp only [List.nil_append, List.filter_cons, beq_self_eq_true,
        if_true, List.filter_nil, List.mem_singleton] at hr
      subst hr
      exact ⟨rfl, rfl, rfl⟩
  | some r0 =>
    have hreg : Reg.register_device db hostname ip ot ov av md now =
        updateWhere (fun r => r.device_id == Reg.generate_device_id ip hostname)
          (fun r => { r with
            hostname := hostname, ip_address := ip, os_type := ot,
            os_version := ov, agent_version := av, metadata := md.getD [],
            last_seen_at := now, status := "online" }) db := by
      simp only [Reg.register_device, hf]
    have hcomm := rowsWithId_updateWhere db (Reg.generate_device_id ip hostname)
      (fun r => { r with
        hostname := hostname, ip_address := ip, os_type := ot,
        os_version := ov, agent_version := av, metadata := md.getD [],
        last_seen_at := now, status := "online" })
      (fun r => rfl)
    rw [hreg, hcomm]
    have hmem : r0 ∈ Reg.rowsWithId db (Reg.generate_device_id ip hostname) := by
      have h1 := List.mem_of_find?_eq_some hf
      have h2 := List.find?_some hf
      unfold Reg.rowsWithId
      exact List.mem_filter.mpr ⟨h1, h2⟩
    have hpos : 0 < (Reg.rowsWithId db (Reg.generate_device_id ip hostname)).length :=
      List.length_pos_of_mem hmem
    constructor
    · rw [List.length_map]
      omega
    · intro r hr
      obtain ⟨x, -, rfl⟩ := List.mem_map.mp hr
      exact ⟨rfl, rfl, rfl⟩

/-- **C5** (confirmed). `generate_device_id` is a pure function of
`(address, hostname)`, so registering the same pair twice targets the
same derived id: starting from a table with at most one row for that id
(the `UNIQUE` constraint), two `register_device` calls leave exactly one
row for the pair, that row is `online` with `last_seen_at` equal to the
second call's time, and its last-seen is ≥ every last-seen value after
the first call. -/
theorem c5_register_upsert_stable
    (db : List Reg.DeviceRow) (hostname ip ot1 ov1 av1 ot2 ov2 av2 : String)
    (md1 md2 : Option (List (String × String))) (t1 t2 : Int)
    (db1 db2 : List Reg.DeviceRow)
    (hone : (Reg.rowsWithId db (Reg.generate_device_id ip hostname)).length ≤ 1)
    (ht : t1 ≤ t2)
    (hdb1 : db1 = Reg.register_device db hostname ip ot1 ov1 av1 md1 t1)
    (hdb2 : db2 = Reg.register_device db1 hostname ip ot2 ov2 av2 md2 t2) :
    (Reg.rowsWithId db2 (Reg.generate_device_id ip hostname)).length = 1 ∧
    (∀ r ∈ Reg.rowsWithId db2 (Reg.generate_device_id ip hostname),
        r.status = "online" ∧ r.last_seen_at = t2) ∧
    (∀ r1 ∈ Reg.rowsWithId db1 (Reg.generate_device_id ip hostname),
     ∀ r2 ∈ Reg.rowsWithId db2 (Reg.generate_device_id ip hostname),
        r1.last_seen_at ≤ r2.last_seen_at) := by
  subst hdb1
  subst hdb2
  obtain ⟨hlen1, hrow1⟩ := register_device_step db hostname ip ot1 ov1 av1 md1 t1
  obtain ⟨hlen2, hrow2⟩ := register_device_step
    (Reg.register_device db hostname ip ot1 ov1 av1 md1 t1)
    hostname ip ot2 ov2 av2 md2 t2
  have h1 : (Reg.rowsWithId (Reg.register_device db hostname ip ot1 ov1 av1 md1 t1)
      (Reg.generate_device_id ip hostname)).length = 1 := by
    rw [hlen1]
    omega
  have h2 : (Reg.rowsWithId (Reg.register_device
      (Reg.register_device db hostname ip ot1 ov1 av1 md1 t1)
      hostname ip ot2 ov2 av2 md2 t2)
      (Reg.generate_device_id ip hostname)).length = 1 := by
    rw [hlen2, h1]
    omega
  refine ⟨h2, fun r hr => ⟨(hrow2 r hr).1, (hrow2 r hr).2.1⟩, ?_⟩
  intro r1 hr1 r2 hr2
  rw [(hrow1 r1 hr1).2.1, (hrow2 r2 hr2).2.1]
  exact ht

/-- Witness for C5: two registrations of `(10.0.0.5, web1)` from the
empty table leave exactly one row. -/
theorem c5_register_upsert_stable_witness :
    (Reg.rowsWithId ([] : List Reg.DeviceRow)
        (Reg.generate_device_id "10.0.0.5" "web1")).length ≤ 1 ∧
    (0 : Int) ≤ 1 ∧
    (Reg.rowsWithId
        (Reg.register_device
          (Reg.register_device [] "web1" "10.0.0.5" "linux" "22.04" "1.0.0" none 0)
          "web1" "10.0.0.5" "linux" "22.10" "1.0.1" none 1)
        (Reg.generate_device_id "10.0.0.5" "web1")).length = 1 := by
  refine ⟨by decide, by decide, ?_⟩
  exact (c5_register_upsert_stable [] "web1" "10.0.0.5" "linux" "22.04" "1.0.0"
    "linux" "22.10" "1.0.1" none none 0 1 _ _ (by decide) (by decide)
    rfl rfl).1

set_option maxRecDepth 10000 in
/-- **C6** counterexample: re-registering the device with metadata
`{"b": "2"}` leaves the row's metadata equal to `{"b": "2"}` — the
previously stored key `"a"` (present only in the stored metadata) is
*not* preserved, so the metadata was replaced, not merged. -/
theorem c6_counterexample :
    (Reg.register_device [c6Row] "web1" "10.0.0.5" "linux" "22.04" "1.0.1"
        (some [("b", "2")]) 5).map (fun r => r.metadata) = [[("b", "2")]] ∧
    ([("b", "2")] : List (String × String)).lookup "a" = none ∧
    c6Row.metadata.lookup "a" = some "1" := by
  refine ⟨?_, by decide, by decide⟩
  decide

/-- **C6** (corrected, amended claim): when `register_device` is called
for a device that already has a row, the stored metadata is *replaced* by
the metadata argument (`Json(metadata or {})`), not merged — every row
with the derived id afterwards carries exactly the argument; deep-merging
happens only in the heartbeat path. -/
theorem c6_register_replaces_metadata
    (db : List Reg.DeviceRow) (hostname ip ot ov av : String)
    (md : Option (List (String × String))) (now : Int) :
    ∀ r ∈ Reg.rowsWithId (Reg.register_device db hostname ip ot ov av md now)
        (Reg.generate_device_id ip hostname),
      r.metadata = md.getD [] :=
  fun r hr => ((register_device_step db hostname ip ot ov av md now).2 r hr).2.2

set_option maxRecDepth 10000 in
/-- Witness for C6's amended claim at the concrete C6 scenario. -/
theorem c6_register_replaces_metadata_witness :
    c6Updated ∈ Reg.rowsWithId
        (Reg.register_device [c6Row] "web1" "10.0.0.5" "linux" "22.04" "1.0.1"
          (some [("b", "2")]) 5)
        (Reg.generate_device_id "10.0.0.5" "web1") ∧
    c6Updated.metadata =
      (some [("b", "2")] : Option (List (String × String))).getD [] := by
  have hm : c6Updated ∈ Reg.rowsWithId
      (Reg.register_device [c6Row] "web1" "10.0.0.5" "linux" "22.04" "1.0.1"
        (some [("b", "2")]) 5)
      (Reg.generate_device_id "10.0.0.5" "web1") := by decide
  exact ⟨hm, c6_register_replaces_metadata [c6Row] "web1" "10.0.0.5" "linux"
    "22.04" "1.0.1" (some [("b", "2")]) 5 c6Updated hm⟩

/-!
## C9: the offline sweep
-/

/-- The ids returned by a sweep are the ids of the stale online rows. -/
theorem check_offline_fst (db : List HB.DeviceRow) (now timeout : Int) :
    (HB.check_offline_devices db now timeout).1 =
      (db.filter (fun d => d.status == "online" &&
        decide (d.last_seen < now - timeout))).map (·.device_id) := by
  simp only [HB.check_offline_devices]
  split <;> rfl

/-- The table produced by a sweep. -/
theorem check_offline_snd (db : List HB.DeviceRow) (now timeout : Int) :
    (HB.check_offline_devices db now timeout).2 =
      (if ((db.filter (fun d => d.status == "online" &&
            decide (d.last_seen < now - timeout))).map (·.device_id)).isEmpty then
        db
      else
        updateWhere (fun d => ((db.filter (fun d => d.status == "online" &&
            decide (d.last_seen < now - timeout))).map (·.device_id)).contains
              d.device_id)
          (fun d => { d with status := "offline" }) db) := by
  simp only [HB.check_offline_devices]
  split <;> rfl


/-- A sweep of a table with no stale online row does nothing. -/
theorem check_offline_of_no_stale (db : List HB.DeviceRow) (now timeout : Int)
    (h : db.filter (fun d => d.status == "online" &&
        decide (d.last_seen < now - timeout)) = []) :
    HB.check_offline_devices db now timeout = ([], db) := by
  simp only [HB.check_offline_devices]
  rw [h]
  rfl

/-- **C9** (confirmed). `check_offline_devices` returns exactly the ids
of the devices that are online with last-seen strictly older than
`now - timeout`; it flips exactly those rows to offline, leaving all
other rows unchanged; and run a second time immediately afterwards (same
`now`) with no intervening heartbeat it flips nothing and returns the
empty list. -/
theorem c9_sweep_offline_idempotent (db : List HB.DeviceRow) (now timeout : Int) :
    (∀ i, i ∈ (HB.check_offline_devices db now timeout).1 ↔
       ∃ d, d ∈ db ∧ d.device_id = i ∧ d.status = "online" ∧
         d.last_seen < now - timeout) ∧
    (∀ d' ∈ (HB.check_offline_devices db now timeout).2, ∃ d, d ∈ db ∧
       ((d.device_id ∈ (HB.check_offline_devices db now timeout).1 ∧
          d' = { d with status := "offline" }) ∨
        (d.device_id ∉ (HB.check_offline_devices db now timeout).1 ∧ d' = d))) ∧
    HB.check_offline_devices (HB.check_offline_devices db now timeout).2 now
        timeout =
      ([], (HB.check_offline_devices db now timeout).2) := by
  have hA : ∀ i, i ∈ (HB.check_offline_devices db now timeout).1 ↔
      ∃ d, d ∈ db ∧ d.device_id = i ∧ d.status = "online" ∧
        d.last_seen < now - timeout := by
    intro i
    rw [check_offline_fst]
    constructor
    · intro hi
      obtain ⟨d, hd, rfl⟩ := List.mem_map.mp hi
      have h := List.mem_filter.mp hd
      have hp := h.2
      rw [Bool.and_eq_true, beq_iff_eq, decide_eq_true_eq] at hp
      exact ⟨d, h.1, rfl, hp.1, hp.2⟩
    · rintro ⟨d, hdb, rfl, hon, hls⟩
      refine List.mem_map.mpr ⟨d, List.mem_filter.mpr ⟨hdb, ?_⟩, rfl⟩
      rw [Bool.and_eq_true, beq_iff_eq, decide_eq_true_eq]
      exact ⟨hon, hls⟩
  have hB : ∀ d' ∈ (HB.check_offline_devices db now timeout).2, ∃ d, d ∈ db ∧
      ((d.device_id ∈ (HB.check_offline_devices db now timeout).1 ∧
         d' = { d with status := "offline" }) ∨
       (d.device_id ∉ (HB.check_offline_devices db now timeout).1 ∧ d' = d)) := by
    intro d' hd'
    rw [check_offline_snd] at hd'
    by_cases hemp : ((db.filter (fun d => d.status == "online" &&
        decide (d.last_seen < now - timeout))).map (·.device_id)).isEmpty = true
    · rw [if_pos hemp] at hd'
      refine ⟨d', hd', Or.inr ⟨?_, rfl⟩⟩
      rw [check_offline_fst, List.isEmpty_iff.mp hemp]
      exact List.not_mem_nil _
    · rw [if_neg hemp] at hd'
      unfold updateWhere at hd'
      obtain ⟨d, hd, rfl⟩ := List.mem_map.mp hd'
      by_cases hc : ((db.filter (fun d => d.status == "online" &&
          decide (d.last_seen < now - timeout))).map (·.device_id)).contains
            d.device_id = true
      · refine ⟨d, hd, Or.inl ⟨?_, ?_⟩⟩
        · rw [check_offline_fst]
          exact List.elem_iff.mp hc
        · rw [if_pos hc]
      · refine ⟨d, hd, Or.inr ⟨?_, ?_⟩⟩
        · rw [check_offline_fst]
          intro hmem
          exact hc (List.elem_iff.mpr hmem)
        · rw [if_neg hc]
  have hall : ∀ d' ∈ (HB.check_offline_devices db now timeout).2,
      ¬ ((fun d => d.status == "online" &&
          decide (d.last_seen < now - timeout)) d' = true) := by
    intro d' hd' hp
    obtain ⟨d, hdb, hcase⟩ := hB d' hd'
    rcases hcase with ⟨-, heq⟩ | ⟨hnot, heq⟩
    · subst heq
      rw [Bool.and_eq_true, beq_iff_eq] at hp
      have hoff : ("offline" : String) = "online" := hp.1
      exact absurd hoff (by decide)
    · rw [heq] at hp
      refine hnot ?_
      rw [check_offline_fst]
      exact List.mem_map.mpr ⟨d, List.mem_filter.mpr ⟨hdb, hp⟩, rfl⟩
  refine ⟨hA, hB, ?_⟩
  exact check_offline_of_no_stale _ now timeout
    (List.filter_eq_nil_iff.mpr hall)

/-- Witness for C9: sweeping `[c9Device]` at `now = 301` with the default
timeout 300 returns exactly `["dev9"]`, and an immediate second sweep is
a no-op. -/
theorem c9_sweep_offline_idempotent_witness :
    "dev9" ∈ (HB.check_offline_devices [c9Device] 301 HB.HEARTBEAT_TIMEOUT).1 ∧
    HB.check_offline_devices
        (HB.check_offline_devices [c9Device] 301 HB.HEARTBEAT_TIMEOUT).2 301
        HB.HEARTBEAT_TIMEOUT =
      ([], (HB.check_offline_devices [c9Device] 301 HB.HEARTBEAT_TIMEOUT).2) := by
  refine ⟨?_, (c9_sweep_offline_idempotent [c9Device] 301 HB.HEARTBEAT_TIMEOUT).2.2⟩
  exact ((c9_sweep_offline_idempotent [c9Device] 301 HB.HEARTBEAT_TIMEOUT).1
    "dev9").mpr ⟨c9Device, List.mem_cons_self _ _, rfl, rfl, by decide⟩

end N8
